import Mathlib

/-!
Shallow embedding of `src/query_pnl.py` (PnL aggregation script).

Numbers are modelled by `ℚ` (the claims about totals are stated over exact
arithmetic).  A JSON record field that may be absent or explicitly `null`
is modelled by `Option (Option α)`: `none` = key absent, `some none` = key
present with value `null`, `some (some a)` = key present with value `a`.
Python dictionary labels (which may be `None`) are `Option String`.
The HTTP transport, `datetime` and timezone lookup are external
collaborators; the fetched document, the formatted timestamp strings and
the timezone label enter the embedded functions as parameters.
-/

namespace QueryPnl

/-- A Python dictionary key that is either a string or `None`. -/
abbrev Label := Option String

/-- One entry of the document's `results` list, restricted to the four
fields the program reads.  Outer `Option` = key present, inner = non-null. -/
structure Record where
  kt_pnl_1_back : Option (Option ℚ)
  current_cumulative_pnl : Option (Option ℚ)
  category : Option (Option String)
  desk : Option (Option String)
deriving DecidableEq

/-- The parsed JSON document, restricted to the `results` key
(`none` = the key is missing, which also covers the empty dict). -/
structure Document where
  results : Option (List Record)
deriving DecidableEq

/-- Python `d.get(k)`: `None` both when the key is absent and when the
stored value is `null`. -/
def pyGet {α : Type} (f : Option (Option α)) : Option α :=
  match f with
  | none => none
  | some v => v

/-- Python `d.get(k, default)`: the default only fires when the key is
absent; a stored `null` comes back as `None`. -/
def pyGetD {α : Type} (f : Option (Option α)) (d : α) : Option α :=
  match f with
  | none => some d
  | some v => v

/-- Lines 70-78 of the source: the contributing PnL value of one record.
The `if q = 0` branch mirrors the dead `elif kt_pnl_1_back == 0.0: pass`. -/
def resolveValue (r : Record) : ℚ :=
  let kt0 := pyGet r.kt_pnl_1_back
  let kt1 : Option ℚ :=
    match kt0 with
    | none => pyGetD r.current_cumulative_pnl 0
    | some q => if q = 0 then some q else some q
  match kt1 with
  | none => 0
  | some q => q

/-- `result.get("category", "Unknown")` / `result.get("desk", "Unknown")`. -/
def getLabel (f : Option (Option String)) : Label :=
  pyGetD f "Unknown"

/-- The three accumulators of `calculate_pnl_statistics`.  The Python
dicts are association lists in insertion order. -/
structure Stats where
  total : ℚ
  by_category : List (Label × ℚ)
  by_desk : List (Label × ℚ)
deriving DecidableEq

/-- `defaultdict(float)` update `m[k] += v`: an existing key keeps its
position, a new key is appended with implicit initial value `0.0`. -/
def bump : List (Label × ℚ) → Label → ℚ → List (Label × ℚ)
  | [], k, v => [(k, v)]
  | (k₂, w) :: m, k, v =>
      if k₂ = k then (k₂, w + v) :: m else (k₂, w) :: bump m k v

/-- Dictionary lookup on the association-list model. -/
def dlookup : List (Label × ℚ) → Label → Option ℚ
  | [], _ => none
  | (k₂, w) :: m, k => if k₂ = k then some w else dlookup m k

/-- The body of the `for result in results` loop (lines 69-89). -/
def stepRecord (acc : Stats) (r : Record) : Stats :=
  let v := resolveValue r
  { total := acc.total + v
    by_category := bump acc.by_category (getLabel r.category) v
    by_desk := bump acc.by_desk (getLabel r.desk) v }

/-- `calculate_pnl_statistics` (lines 55-95).  `none` models the
`return None` on `not data or "results" not in data`. -/
def calculate_pnl_statistics (data : Option Document) : Option Stats :=
  match data with
  | none => none
  | some d =>
    match d.results with
    | none => none
    | some results => some (results.foldl stepRecord ⟨0, [], []⟩)

/-- Sum of the values of a bucket dictionary. -/
def sumVals (m : List (Label × ℚ)) : ℚ :=
  (m.map Prod.snd).sum

/-- Category label of a record, with the Unknown default. -/
def catOf (r : Record) : Label := getLabel r.category

/-- Desk label of a record, with the Unknown default. -/
def deskOf (r : Record) : Label := getLabel r.desk

/-- Sum of the contributing values of the records carrying label `k`. -/
def keySum (lab : Record → Label) (rs : List Record) (k : Label) : ℚ :=
  ((rs.filter (fun r => lab r == k)).map resolveValue).sum

/-- Whether some record carries label `k`. -/
def hasKey (lab : Record → Label) (rs : List Record) (k : Label) : Bool :=
  rs.any (fun r => lab r == k)

/-- Round a rational to the nearest integer, ties to even (the rounding
Python's `round` and `%.2f` formatting idealise to over exact numbers). -/
def rhe (q : ℚ) : ℤ :=
  let f := q.floor
  let r := q - (f : ℚ)
  if r < 1/2 then f else if 1/2 < r then f + 1 else if f % 2 = 0 then f else f + 1

/-- Python `round(x, 2)` over exact arithmetic. -/
def round2 (q : ℚ) : ℚ :=
  ((rhe (q * 100) : ℚ)) / 100

/-- Python comparison `(k1, v1) < (k2, v2)` on dictionary items, as used by
`sorted`.  Comparing a `None` label with a string label raises `TypeError`,
modelled by `none`. -/
def pairLT (x y : Label × ℚ) : Option Bool :=
  match x.1, y.1 with
  | some a, some b => if a = b then some (decide (x.2 < y.2)) else some (decide (a < b))
  | none, none => some (decide (x.2 < y.2))
  | _, _ => none

/-- Stable insertion into a sorted list, propagating a `TypeError` from an
incomparable pair (`sorted` on mixed `None`/string labels). -/
def insertP (x : Label × ℚ) : List (Label × ℚ) → Option (List (Label × ℚ))
  | [] => some [x]
  | y :: m =>
    match pairLT x y with
    | none => none
    | some true => some (x :: y :: m)
    | some false => (insertP x m).map (fun m₂ => y :: m₂)

/-- Python `sorted(d.items())`: succeeds with the ascending list, or
raises (`none`) when a `None` label must be compared with a string. -/
def sortPairs : List (Label × ℚ) → Option (List (Label × ℚ))
  | [] => some []
  | x :: m => (sortPairs m).bind (insertP x)

/-- Outcome of running a piece of Python code: a value, or an uncaught
exception. -/
inductive PyResult (α : Type) where
  | ok : α → PyResult α
  | exc : PyResult α
deriving DecidableEq

/-- The structured payload built by `format_response` (lines 128-140). -/
structure ResponsePayload where
  timestamp : String
  timezone : String
  total_pnl : ℚ
  by_category : List (Label × ℚ)
  by_desk : List (Label × ℚ)
deriving DecidableEq

/-- `format_response` (lines 128-140): `ok none` models the `return None`
for falsy stats, `exc` a `TypeError` escaping from `sorted`. -/
def format_response (stats : Option Stats) (timestamp timezone_str : String) :
    PyResult (Option ResponsePayload) :=
  match stats with
  | none => PyResult.ok none
  | some s =>
    match sortPairs s.by_category, sortPairs s.by_desk with
    | some c, some d =>
        PyResult.ok (some
          { timestamp := timestamp
            timezone := timezone_str
            total_pnl := round2 s.total
            by_category := c.map (fun q => (q.1, round2 q.2))
            by_desk := d.map (fun q => (q.1, round2 q.2)) })
    | _, _ => PyResult.exc

/-- Fixed-width two-digit rendering of a natural number below 100. -/
def pad2 (n : Nat) : String :=
  if n < 10 then "0" ++ toString n else toString n

/-- Python `f-string` formatting `{:.2f}` over exact arithmetic. -/
def formatQ2 (q : ℚ) : String :=
  let n := rhe (q * 100)
  let s := toString (n.natAbs / 100) ++ "." ++ pad2 (n.natAbs % 100)
  if n < 0 then "-" ++ s else s

/-- How Python prints a dictionary key: `None` renders as the text None. -/
def labelStr : Label → String
  | none => "None"
  | some s => s

/-- The `"-" * 40` separator line. -/
def dashLine : String :=
  String.mk (List.replicate 40 '-')

/-- `print_statistics` (lines 98-113), modelled as the list of printed
lines; `exc` is the `TypeError` raised by `sorted` on mixed labels
(the lines printed before the raise are dropped from the model). -/
def print_statistics (stats : Option Stats) : PyResult (List String) :=
  match stats with
  | none => PyResult.ok []
  | some s =>
    match sortPairs s.by_category, sortPairs s.by_desk with
    | some c, some d =>
        PyResult.ok
          (["Total PnL: " ++ formatQ2 s.total, "", "PnL by Category:", dashLine]
            ++ c.map (fun p => labelStr p.1 ++ ": " ++ formatQ2 p.2)
            ++ ["", "PnL by Desk:", dashLine]
            ++ d.map (fun p => labelStr p.1 ++ ": " ++ formatQ2 p.2))
    | _, _ => PyResult.exc

/-- Body of a handler envelope: the JSON-encoded error object, the
JSON-encoded payload, or the literal null from `json.dumps(None)`. -/
inductive Body where
  | error : String → String → Body
  | payload : Option ResponsePayload → Body
deriving DecidableEq

/-- An API-Gateway style envelope; error envelopes carry no `headers` key. -/
structure Envelope where
  statusCode : Nat
  headers : Option (List (String × String))
  body : Body
deriving DecidableEq

/-- Modelled stand-in for the text of a `TypeError` raised while sorting
mixed `None`/string labels (the real interpreter message differs). -/
def typeErrorText : String :=
  "Unexpected error: TypeError comparing str and NoneType"

/-- `lambda_handler` (lines 143-209).  `exc` is an oracle for an
unexpected exception raised anywhere inside the `try` block (`some msg`
behaves like `except Exception as e`); `fetched` is the value returned by
`query_pnl_data` (`none` = the fetch failed); `nowStr` is
`current_time.strftime(...)`, `isoStr` is `datetime.now().isoformat()`,
`tz` is `get_timezone_string()`. -/
def lambda_handler (exc : Option String) (fetched : Option Document)
    (nowStr isoStr tz : String) : Envelope :=
  match exc with
  | some msg =>
      { statusCode := 500, headers := none
        body := Body.error ("Unexpected error: " ++ msg) isoStr }
  | none =>
    match fetched with
    | none =>
        { statusCode := 500, headers := none
          body := Body.error "Failed to retrieve data from API." isoStr }
    | some data =>
      match calculate_pnl_statistics (some data) with
      | none =>
          { statusCode := 500, headers := none
            body := Body.error "Failed to calculate statistics." isoStr }
      | some stats =>
        match print_statistics (some stats) with
        | PyResult.exc =>
            { statusCode := 500, headers := none
              body := Body.error typeErrorText isoStr }
        | PyResult.ok _ =>
          match format_response (some stats) nowStr tz with
          | PyResult.exc =>
              { statusCode := 500, headers := none
                body := Body.error typeErrorText isoStr }
          | PyResult.ok b =>
              { statusCode := 200
                headers := some [("Content-Type", "application/json")]
                body := Body.payload b }

def queryMsg : String := "Querying PnL dashboard API..."

def fetchFailMsg : String := "Failed to retrieve data from API."

def aggFailMsg : String := "Failed to calculate statistics."

def calcMsg (nowStr tz : String) : String :=
  "Calculating statistics... [" ++ nowStr ++ " " ++ tz ++ "]"

/-- `main` (lines 212-230), modelled as the list of lines it prints (the
diagnostic dump inside `query_pnl_data` belongs to the external Fetcher
and is omitted).  `main` has no `try`/`except`, so an exception raised
while printing statistics propagates (`exc`). -/
def main (fetched : Option Document) (nowStr tz : String) :
    PyResult (List String) :=
  match fetched with
  | none => PyResult.ok [queryMsg, fetchFailMsg]
  | some data =>
    match calculate_pnl_statistics (some data) with
    | none => PyResult.ok [queryMsg, calcMsg nowStr tz, aggFailMsg]
    | some stats =>
      match print_statistics (some stats) with
      | PyResult.exc => PyResult.exc
      | PyResult.ok ls => PyResult.ok (queryMsg :: calcMsg nowStr tz :: ls)

/-- Non-strict label order underlying Python's ascending sort; two labels
are comparable only when both are strings or both are `None`. -/
def labelLe : Label → Label → Bool
  | some a, some b => decide (a ≤ b)
  | none, none => true
  | _, _ => false

/-- All labels of a bucket dictionary are strings (no `None` key). -/
def strLabelsB (m : List (Label × ℚ)) : Bool :=
  m.all (fun p => p.1.isSome)

/-- A value that carries at most two decimal places. -/
def isR2 (q : ℚ) : Prop :=
  ∃ n : ℤ, q = (n : ℚ) / 100

/-- Rounding one bucket entry to two decimal places. -/
def roundPair (p : Label × ℚ) : Label × ℚ :=
  (p.1, round2 p.2)

/-- Ordering relation on bucket entries used to state sortedness. -/
def entryLe (x y : Label × ℚ) : Prop :=
  labelLe x.1 y.1 = true

/-- Spec-side restatement of the value-selection precedence (section 4.2,
rules 1-3), written from the spec's words for comparison with
`resolveValue`. -/
def specContribution (r : Record) : ℚ :=
  match r.kt_pnl_1_back with
  | some (some q) => q
  | _ =>
    match r.current_cumulative_pnl with
    | none => 0
    | some none => 0
    | some (some q) => q

/-! Concrete documents used as evaluation points. -/

/-- First record of the spec's end-to-end example. -/
def r1 : Record := ⟨some (some 10), none, some (some "FX"), some (some "D1")⟩

/-- Second record of the spec's end-to-end example (`kt_pnl_1_back: null`). -/
def r2 : Record := ⟨some none, some (some 3), some (some "FX"), some (some "D2")⟩

/-- Third record of the spec's end-to-end example (`kt_pnl_1_back: 0.0`). -/
def r3 : Record := ⟨some (some 0), none, some (some "RATES"), some (some "D1")⟩

/-- The spec's end-to-end example document. -/
def exDoc : Document := ⟨some [r1, r2, r3]⟩

/-- The aggregate the example document produces. -/
def exStats : Stats :=
  ⟨13, [(some "FX", 13), (some "RATES", 0)], [(some "D1", 10), (some "D2", 3)]⟩

/-- The example document with its records rotated. -/
def exDoc₂ : Document := ⟨some [r3, r1, r2]⟩

/-- The aggregate the rotated example document produces (same totals,
buckets in a different insertion order). -/
def exStats₂ : Stats :=
  ⟨13, [(some "RATES", 0), (some "FX", 13)], [(some "D1", 10), (some "D2", 3)]⟩

/-- A record whose `category` key is present but `null`. -/
def rNullCat : Record := ⟨some (some 1), none, some none, some (some "D1")⟩

/-- A plain record with a string category. -/
def rStrCat : Record := ⟨some (some 2), none, some (some "FX"), some (some "D2")⟩

/-- A document whose aggregate mixes a `None` category label with a
string label, which makes `sorted` raise `TypeError`. -/
def mixedDoc : Document := ⟨some [rNullCat, rStrCat]⟩

/-- The aggregate of `mixedDoc`. -/
def mixedStats : Stats :=
  ⟨3, [(none, 1), (some "FX", 2)], [(some "D1", 1), (some "D2", 2)]⟩

/-- A record with no fields at all. -/
def rEmpty : Record := ⟨none, none, none, none⟩

/-- The lines `print_statistics` emits for the example aggregate. -/
def exLines : List String :=
  ["Total PnL: 13.00", "", "PnL by Category:", dashLine,
    "FX: 13.00", "RATES: 0.00", "", "PnL by Desk:", dashLine,
    "D1: 10.00", "D2: 3.00"]

/-! Claim theorems. -/

/-- C1: inside the aggregation loop of `calculate_pnl_statistics`, every
record contributes exactly the value given by the spec's precedence: the
primary field `kt_pnl_1_back` as-is when present and non-null (zero
included, the dead zero branch notwithstanding); otherwise the fallback
`current_cumulative_pnl` with `0.0` for an absent key; and `0.0` when the
resolved value is still null. -/
theorem contribution_precedence (acc : Stats) (r : Record) :
    stepRecord acc r =
      { total := acc.total + specContribution r
        by_category := bump acc.by_category (getLabel r.category) (specContribution r)
        by_desk := bump acc.by_desk (getLabel r.desk) (specContribution r) } := by
  have hv : resolveValue r = specContribution r := by
    unfold resolveValue specContribution pyGet pyGetD
    rcases r with ⟨kt, ccp, c, d⟩
    rcases kt with _ | _ | q <;> rcases ccp with _ | _ | w <;> simp
  simp [stepRecord, hv]

/-- Evaluation of the aggregation on the spec's example document. -/
theorem exDoc_eval : calculate_pnl_statistics (some exDoc) = some exStats := by
  simp only [calculate_pnl_statistics, exDoc, List.foldl, stepRecord, resolveValue,
    pyGet, pyGetD, getLabel, bump, exStats, r1, r2, r3]
  norm_num
  all_goals decide

/-- Evaluation of the aggregation on the rotated example document. -/
theorem exDoc₂_eval : calculate_pnl_statistics (some exDoc₂) = some exStats₂ := by
  simp only [calculate_pnl_statistics, exDoc₂, List.foldl, stepRecord, resolveValue,
    pyGet, pyGetD, getLabel, bump, exStats₂, r1, r2, r3]
  norm_num
  all_goals decide

/-- C3: on the spec's three-record example the code returns total `13`,
category buckets `FX = 13`, `RATES = 0`, and desk buckets `D1 = 10`
(the zero from the RATES record lands on D1), `D2 = 3`. -/
theorem example_aggregation :
    calculate_pnl_statistics (some exDoc) = some exStats := exDoc_eval

/-- C4: `calculate_pnl_statistics` returns the failure value `None`
exactly when the document is absent (or falsy) or has no `results` key,
and `lambda_handler` turns that aggregation failure into a 500 envelope
carrying an error message and a timestamp. -/
theorem aggregation_failure_condition :
    (∀ data : Option Document,
        calculate_pnl_statistics data = none ↔
          data = none ∨ data = some ⟨none⟩) ∧
      (∀ (d : Document) (nowStr isoStr tz : String),
        calculate_pnl_statistics (some d) = none →
          lambda_handler none (some d) nowStr isoStr tz =
            { statusCode := 500, headers := none
              body := Body.error "Failed to calculate statistics." isoStr }) := by
  constructor
  · intro data
    constructor
    · intro h
      rcases data with _ | ⟨_ | rs⟩
      · exact Or.inl rfl
      · exact Or.inr rfl
      · simp [calculate_pnl_statistics] at h
    · rintro (rfl | rfl) <;> rfl
  · intro d nowStr isoStr tz h
    simp [lambda_handler, h]

/-- C4 witness: the failure condition and the 500 envelope at concrete
inputs. -/
theorem aggregation_failure_condition_witness :
    calculate_pnl_statistics (some ⟨none⟩) = none ∧
      lambda_handler none (some ⟨none⟩) "n" "i" "t" =
        { statusCode := 500, headers := none
          body := Body.error "Failed to calculate statistics." "i" } :=
  ⟨(aggregation_failure_condition.1 (some ⟨none⟩)).mpr (Or.inr rfl),
    aggregation_failure_condition.2 ⟨none⟩ "n" "i" "t" rfl⟩

/-- Looking up the bumped key: the old value (implicitly `0`) plus `v`. -/
theorem dlookup_bump_self (m : List (Label × ℚ)) (k : Label) (v : ℚ) :
    dlookup (bump m k v) k = some ((dlookup m k).getD 0 + v) := by
  induction m with
  | nil => simp [bump, dlookup]
  | cons p m ih =>
    rcases p with ⟨k₂, w⟩
    by_cases hk : k₂ = k
    · simp [bump, hk, dlookup]
    · simp [bump, hk, dlookup, ih]

/-- Bumping one key leaves every other key unchanged. -/
theorem dlookup_bump_ne (m : List (Label × ℚ)) (k : Label) (v : ℚ)
    (k₂ : Label) (hne : k₂ ≠ k) :
    dlookup (bump m k v) k₂ = dlookup m k₂ := by
  have hne₂ : ¬ k = k₂ := fun h => hne h.symm
  induction m with
  | nil => simp [bump, dlookup, hne₂]
  | cons p m ih =>
    rcases p with ⟨k₃, w⟩
    by_cases hk : k₃ = k
    · subst hk
      simp [bump, dlookup, hne₂]
    · simp [bump, hk, dlookup, ih]

/-- C5: a record with the `category` (resp. `desk`) key absent is
accumulated into the bucket labelled Unknown, and buckets are created
lazily starting from an implicit zero: bumping an absent key yields
`0 + v` and leaves every other key untouched. -/
theorem unknown_bucket_and_lazy_creation (acc : Stats) :
    (∀ r : Record, r.category = none →
        (stepRecord acc r).by_category =
          bump acc.by_category (some "Unknown") (resolveValue r)) ∧
      (∀ r : Record, r.desk = none →
        (stepRecord acc r).by_desk =
          bump acc.by_desk (some "Unknown") (resolveValue r)) ∧
      (∀ (m : List (Label × ℚ)) (k : Label) (v : ℚ),
        dlookup m k = none → dlookup (bump m k v) k = some (0 + v)) ∧
      (∀ (m : List (Label × ℚ)) (k : Label) (v : ℚ) (k₂ : Label),
        k₂ ≠ k → dlookup (bump m k v) k₂ = dlookup m k₂) := by
  refine ⟨?_, ?_, ?_, ?_⟩
  · intro r h
    simp [stepRecord, getLabel, pyGetD, h]
  · intro r h
    simp [stepRecord, getLabel, pyGetD, h]
  · intro m k v h
    simp [dlookup_bump_self, h]
  · intro m k v k₂ hne
    exact dlookup_bump_ne m k v k₂ hne

/-- C5 witness: the Unknown bucket and lazy zero creation at concrete
inputs. -/
theorem unknown_bucket_and_lazy_creation_witness :
    (stepRecord ⟨0, [], []⟩ rEmpty).by_category =
        bump [] (some "Unknown") (resolveValue rEmpty) ∧
      (stepRecord ⟨0, [], []⟩ rEmpty).by_desk =
        bump [] (some "Unknown") (resolveValue rEmpty) ∧
      dlookup (bump [(some "A", 1)] (some "B") 5) (some "B") = some (0 + 5) ∧
      dlookup (bump [(some "A", 1)] (some "B") 5) (some "A") =
        dlookup [(some "A", 1)] (some "A") :=
  ⟨(unknown_bucket_and_lazy_creation ⟨0, [], []⟩).1 rEmpty rfl,
    (unknown_bucket_and_lazy_creation ⟨0, [], []⟩).2.1 rEmpty rfl,
    (unknown_bucket_and_lazy_creation ⟨0, [], []⟩).2.2.1
      [(some "A", 1)] (some "B") 5 (by decide),
    (unknown_bucket_and_lazy_creation ⟨0, [], []⟩).2.2.2
      [(some "A", 1)] (some "B") 5 (some "A") (by decide)⟩

/-- Bumping a bucket raises its value sum by exactly the bumped amount. -/
theorem sumVals_bump (m : List (Label × ℚ)) (k : Label) (v : ℚ) :
    sumVals (bump m k v) = sumVals m + v := by
  induction m with
  | nil => simp [bump, sumVals]
  | cons p m ih =>
    rcases p with ⟨k₂, w⟩
    by_cases hk : k₂ = k
    · simp [bump, hk, sumVals]
      ring
    · simp [bump, hk, sumVals] at ih ⊢
      rw [ih]
      ring

/-- The aggregation loop keeps both bucket sums equal to the total. -/
theorem fold_balanced (rs : List Record) :
    ∀ acc : Stats,
      sumVals acc.by_category = acc.total →
      sumVals acc.by_desk = acc.total →
      sumVals (rs.foldl stepRecord acc).by_category =
          (rs.foldl stepRecord acc).total ∧
        sumVals (rs.foldl stepRecord acc).by_desk =
          (rs.foldl stepRecord acc).total := by
  induction rs with
  | nil => exact fun acc h₁ h₂ => ⟨h₁, h₂⟩
  | cons r rs ih =>
    intro acc h₁ h₂
    refine ih (stepRecord acc r) ?_ ?_ <;>
      simp [stepRecord, sumVals_bump, h₁, h₂]

/-- C2: whenever `calculate_pnl_statistics` succeeds, the sum of the
category buckets and the sum of the desk buckets both equal the grand
total (exactly, over exact arithmetic). -/
theorem buckets_sum_to_total (data : Option Document) (s : Stats)
    (hs : calculate_pnl_statistics data = some s) :
    sumVals s.by_category = s.total ∧ sumVals s.by_desk = s.total := by
  rcases data with _ | ⟨_ | rs⟩ <;>
    simp [calculate_pnl_statistics] at hs
  subst hs
  exact fold_balanced rs ⟨0, [], []⟩ rfl rfl

/-- C2 witness: the bucket sums on the spec's example document. -/
theorem buckets_sum_to_total_witness :
    sumVals exStats.by_category = exStats.total ∧
      sumVals exStats.by_desk = exStats.total :=
  buckets_sum_to_total (some exDoc) exStats exDoc_eval

/-- The grand total after the loop: starting total plus the sum of all
contributing values. -/
theorem fold_total (rs : List Record) :
    ∀ acc : Stats,
      (rs.foldl stepRecord acc).total = acc.total + (rs.map resolveValue).sum := by
  induction rs with
  | nil => intro acc; simp
  | cons r rs ih =>
    intro acc
    rw [List.foldl_cons, ih (stepRecord acc r)]
    simp only [stepRecord, List.map_cons, List.sum_cons]
    ring

/-- Bucket content after the loop, label by label: the starting value
(when the key pre-exists) plus the label's key sum, the key being created
exactly when some record carries it. -/
theorem dlookup_fold (lab : Record → Label)
    (proj : Stats → List (Label × ℚ))
    (hproj : ∀ acc r, proj (stepRecord acc r) =
      bump (proj acc) (lab r) (resolveValue r))
    (rs : List Record) :
    ∀ (acc : Stats) (k : Label),
      dlookup (proj (rs.foldl stepRecord acc)) k =
        match dlookup (proj acc) k with
        | some w => some (w + keySum lab rs k)
        | none => if hasKey lab rs k then some (keySum lab rs k) else none := by
  induction rs with
  | nil =>
    intro acc k
    rcases h : dlookup (proj acc) k with _ | w <;>
      simp [keySum, hasKey, h]
  | cons r rs ih =>
    intro acc k
    rw [List.foldl_cons, ih (stepRecord acc r) k, hproj acc r]
    by_cases hk : lab r = k
    · rw [hk, dlookup_bump_self]
      have hsum : keySum lab (r :: rs) k = resolveValue r + keySum lab rs k := by
        simp [keySum, List.filter_cons, hk]
      have hhas : hasKey lab (r :: rs) k = true := by
        simp [hasKey, List.any_cons, hk]
      rcases h : dlookup (proj acc) k with _ | w
      · simp [h, hsum, hhas]
      · simp [h, hsum, hhas]
        ring
    · rw [dlookup_bump_ne _ _ _ _ (fun h => hk h.symm)]
      have hsum : keySum lab (r :: rs) k = keySum lab rs k := by
        simp [keySum, List.filter_cons, hk]
      have hhas : hasKey lab (r :: rs) k = hasKey lab rs k := by
        simp [hasKey, List.any_cons, hk]
      rw [hsum, hhas]

/-- `keySum` only depends on the multiset of records. -/
theorem keySum_perm (lab : Record → Label) {rs rs₂ : List Record}
    (h : rs.Perm rs₂) (k : Label) :
    keySum lab rs k = keySum lab rs₂ k :=
  ((h.filter (fun r => lab r == k)).map resolveValue).sum_eq

/-- `hasKey` only depends on the multiset of records. -/
theorem hasKey_perm (lab : Record → Label) {rs rs₂ : List Record}
    (h : rs.Perm rs₂) (k : Label) :
    hasKey lab rs k = hasKey lab rs₂ k := by
  rw [hasKey, hasKey, Bool.eq_iff_iff]
  simp only [List.any_eq_true]
  exact ⟨fun ⟨x, hx, hp⟩ => ⟨x, h.mem_iff.mp hx, hp⟩,
    fun ⟨x, hx, hp⟩ => ⟨x, h.mem_iff.mpr hx, hp⟩⟩

/-- C9: the result of `calculate_pnl_statistics` does not depend on the
order of the records: a permuted `results` list yields the same total and
the same bucket dictionaries (same key sets, same values — exactly, over
exact arithmetic). -/
theorem permutation_invariance (rs rs₂ : List Record) (h : rs.Perm rs₂)
    (s s₂ : Stats)
    (hs : calculate_pnl_statistics (some ⟨some rs⟩) = some s)
    (hs₂ : calculate_pnl_statistics (some ⟨some rs₂⟩) = some s₂) :
    s.total = s₂.total ∧
      (∀ k, dlookup s.by_category k = dlookup s₂.by_category k) ∧
      (∀ k, dlookup s.by_desk k = dlookup s₂.by_desk k) := by
  simp only [calculate_pnl_statistics, Option.some.injEq] at hs hs₂
  subst hs hs₂
  refine ⟨?_, ?_, ?_⟩
  · rw [fold_total, fold_total, (h.map resolveValue).sum_eq]
  · intro k
    rw [dlookup_fold catOf Stats.by_category (fun acc r => rfl) rs ⟨0, [], []⟩ k,
      dlookup_fold catOf Stats.by_category (fun acc r => rfl) rs₂ ⟨0, [], []⟩ k,
      keySum_perm catOf h k, hasKey_perm catOf h k]
  · intro k
    rw [dlookup_fold deskOf Stats.by_desk (fun acc r => rfl) rs ⟨0, [], []⟩ k,
      dlookup_fold deskOf Stats.by_desk (fun acc r => rfl) rs₂ ⟨0, [], []⟩ k,
      keySum_perm deskOf h k, hasKey_perm deskOf h k]

/-- C9 witness: a concrete permutation of the example records gives the
same statistics. -/
theorem permutation_invariance_witness :
    exStats.total = exStats₂.total ∧
      (∀ k, dlookup exStats.by_category k = dlookup exStats₂.by_category k) ∧
      (∀ k, dlookup exStats.by_desk k = dlookup exStats₂.by_desk k) :=
  permutation_invariance [r1, r2, r3] [r3, r1, r2]
    (@List.perm_append_comm Record [r1, r2] [r3]) exStats exStats₂
    exDoc_eval exDoc₂_eval

/-- `entryLe` is transitive (comparable labels chain only through labels
of the same shape). -/
theorem entryLe_trans {x y z : Label × ℚ} (h₁ : entryLe x y) (h₂ : entryLe y z) :
    entryLe x z := by
  rcases x with ⟨_ | a, vx⟩ <;> rcases y with ⟨_ | b, vy⟩ <;>
    rcases z with ⟨_ | c, vz⟩
  · rfl
  · exact absurd h₂ Bool.false_ne_true
  · exact absurd h₁ Bool.false_ne_true
  · exact absurd h₁ Bool.false_ne_true
  · exact absurd h₁ Bool.false_ne_true
  · exact absurd h₁ Bool.false_ne_true
  · exact absurd h₂ Bool.false_ne_true
  · show decide (a ≤ c) = true
    have hab : a ≤ b := of_decide_eq_true h₁
    have hbc : b ≤ c := of_decide_eq_true h₂
    exact decide_eq_true (le_trans hab hbc)

/-- A successful Python comparison `x < y` implies `x ≤ y` on labels. -/
theorem pairLT_true_le {x y : Label × ℚ} (h : pairLT x y = some true) :
    entryLe x y := by
  rcases x with ⟨_ | a, vx⟩ <;> rcases y with ⟨_ | b, vy⟩
  · rfl
  · exact Option.noConfusion h
  · exact Option.noConfusion h
  · show decide (a ≤ b) = true
    by_cases hab : a = b
    · exact decide_eq_true (le_of_eq hab)
    · have h₂ : (if a = b then some (decide (vx < vy))
          else some (decide (a < b))) = some true := h
      rw [if_neg hab] at h₂
      exact decide_eq_true (le_of_lt (of_decide_eq_true (Option.some.inj h₂)))

/-- A successful Python comparison of `x < y` returning false implies
`y ≤ x` on labels. -/
theorem pairLT_false_ge {x y : Label × ℚ} (h : pairLT x y = some false) :
    entryLe y x := by
  rcases x with ⟨_ | a, vx⟩ <;> rcases y with ⟨_ | b, vy⟩
  · rfl
  · exact Option.noConfusion h
  · exact Option.noConfusion h
  · show decide (b ≤ a) = true
    by_cases hab : a = b
    · exact decide_eq_true (le_of_eq hab.symm)
    · have h₂ : (if a = b then some (decide (vx < vy))
          else some (decide (a < b))) = some false := h
      rw [if_neg hab] at h₂
      have hnlt : ¬ a < b := of_decide_eq_false (Option.some.inj h₂)
      exact decide_eq_true (le_of_not_lt hnlt)

/-- Inserting a string-labelled entry into a sorted, string-labelled list
succeeds and yields a sorted permutation of `x :: l`. -/
theorem insertP_spec (x : Label × ℚ) (l : List (Label × ℚ))
    (hx : x.1.isSome = true) (hl : strLabelsB l = true)
    (hs : l.Pairwise entryLe) :
    ∃ l₂, insertP x l = some l₂ ∧ l₂.Perm (x :: l) ∧
      l₂.Pairwise entryLe ∧ strLabelsB l₂ = true := by
  induction l with
  | nil =>
    exact ⟨[x], rfl, List.Perm.refl _, List.pairwise_singleton _ _,
      by simp [strLabelsB, hx]⟩
  | cons y m ih =>
    have hy : y.1.isSome = true := by
      simp [strLabelsB] at hl
      exact hl.1
    have hm : strLabelsB m = true := by
      simp [strLabelsB] at hl ⊢
      exact fun p hp => hl.2 p hp
    have hsm : m.Pairwise entryLe := (List.pairwise_cons.mp hs).2
    have hym : ∀ z ∈ m, entryLe y z := (List.pairwise_cons.mp hs).1
    rcases ht : pairLT x y with _ | t
    · exfalso
      rcases Option.isSome_iff_exists.mp hx with ⟨a, ha⟩
      rcases Option.isSome_iff_exists.mp hy with ⟨b, hb⟩
      rcases x with ⟨xl, xv⟩
      rcases y with ⟨yl, yv⟩
      simp only at ha hb
      subst ha hb
      by_cases hab : a = b <;> simp [pairLT, hab] at ht
    rcases t with _ | _
    · -- x is not inserted at the head: recurse into the tail
      rcases ih hm hsm with ⟨m₂, hins, hperm, hsort, hstr⟩
      refine ⟨y :: m₂, ?_, ?_, ?_, ?_⟩
      · simp [insertP, ht, hins]
      · exact (hperm.cons y).trans (List.Perm.swap x y m)
      · refine List.pairwise_cons.mpr ⟨?_, hsort⟩
        intro z hz
        rcases List.mem_cons.mp (hperm.mem_iff.mp hz) with hzx | hzm
        · subst hzx
          exact pairLT_false_ge ht
        · exact hym z hzm
      · simp [strLabelsB] at hstr ⊢
        exact ⟨hy, hstr⟩
    · -- x goes in front
      refine ⟨x :: y :: m, by simp [insertP, ht], List.Perm.refl _, ?_, ?_⟩
      · refine List.pairwise_cons.mpr ⟨?_, hs⟩
        intro z hz
        rcases List.mem_cons.mp hz with hzy | hzm
        · subst hzy
          exact pairLT_true_le ht
        · exact entryLe_trans (pairLT_true_le ht) (hym z hzm)
      · simp [strLabelsB] at hl ⊢
        exact ⟨hx, hl⟩

/-- Sorting a string-labelled dictionary succeeds and yields an ascending
permutation of its entries. -/
theorem sortPairs_spec (l : List (Label × ℚ)) (hl : strLabelsB l = true) :
    ∃ l₂, sortPairs l = some l₂ ∧ l₂.Perm l ∧
      l₂.Pairwise entryLe ∧ strLabelsB l₂ = true := by
  induction l with
  | nil => exact ⟨[], rfl, List.Perm.refl _, List.Pairwise.nil, rfl⟩
  | cons x m ih =>
    have hx : x.1.isSome = true := by
      simp [strLabelsB] at hl
      exact hl.1
    have hm : strLabelsB m = true := by
      simp [strLabelsB] at hl ⊢
      exact fun p hp => hl.2 p hp
    rcases ih hm with ⟨m₂, hsort, hperm, hpw, hstr⟩
    rcases insertP_spec x m₂ hx hstr hpw with ⟨l₂, hins, hperm₂, hpw₂, hstr₂⟩
    exact ⟨l₂, by simp [sortPairs, hsort, hins],
      hperm₂.trans (hperm.cons x), hpw₂, hstr₂⟩

/-- C10: a record whose `category` (resp. `desk`) key is present but
explicitly `null` is accumulated into the bucket keyed by the `None`
label itself, which is distinct from Unknown; the Unknown default
applies exactly when the key is entirely absent (or the stored string
happens to be the literal Unknown). -/
theorem null_label_bucket (acc : Stats) :
    (∀ r : Record, r.category = some none →
        (stepRecord acc r).by_category =
          bump acc.by_category none (resolveValue r)) ∧
      (∀ r : Record, r.desk = some none →
        (stepRecord acc r).by_desk =
          bump acc.by_desk none (resolveValue r)) ∧
      ((none : Label) ≠ some "Unknown") ∧
      (∀ f : Option (Option String),
        getLabel f = some "Unknown" ↔ f = none ∨ f = some (some "Unknown")) := by
  refine ⟨?_, ?_, by decide, ?_⟩
  · intro r h
    simp [stepRecord, getLabel, pyGetD, h]
  · intro r h
    simp [stepRecord, getLabel, pyGetD, h]
  · intro f
    rcases f with _ | _ | s <;> simp [getLabel, pyGetD]

/-- C10 witness: a null category and a null desk land in the `None`
bucket, and the Unknown default fires for an absent key. -/
theorem null_label_bucket_witness :
    (stepRecord ⟨0, [], []⟩ ⟨some (some 1), none, some none, some none⟩).by_category =
        bump [] none (resolveValue ⟨some (some 1), none, some none, some none⟩) ∧
      (stepRecord ⟨0, [], []⟩ ⟨some (some 1), none, some none, some none⟩).by_desk =
        bump [] none (resolveValue ⟨some (some 1), none, some none, some none⟩) ∧
      getLabel none = some "Unknown" :=
  ⟨(null_label_bucket ⟨0, [], []⟩).1 ⟨some (some 1), none, some none, some none⟩ rfl,
    (null_label_bucket ⟨0, [], []⟩).2.1 ⟨some (some 1), none, some none, some none⟩ rfl,
    ((null_label_bucket ⟨0, [], []⟩).2.2.2 none).mpr (Or.inl rfl)⟩

/-- Evaluation of the aggregation on the mixed-label document. -/
theorem mixedDoc_eval :
    calculate_pnl_statistics (some mixedDoc) = some mixedStats := by
  with_unfolding_all decide

/-- Printing the mixed-label aggregate raises `TypeError` inside `sorted`. -/
theorem print_mixed_exc :
    print_statistics (some mixedStats) = PyResult.exc := rfl

/-- Printing the example aggregate succeeds with the expected lines. -/
theorem print_ex_lines :
    print_statistics (some exStats) = PyResult.ok exLines := by
  with_unfolding_all decide

/-- C6 counterexample: the aggregate of `mixedDoc` (a reachable
`AggregateResult` pairing a `None` category label with a string label)
makes `format_response` raise `TypeError` instead of producing a
payload. -/
theorem format_mixed_labels_raises :
    calculate_pnl_statistics (some mixedDoc) = some mixedStats ∧
      format_response (some mixedStats) "2025-11-07 12:00:00" "UTC" =
        PyResult.exc := by
  exact ⟨mixedDoc_eval, rfl⟩

/-- C6 (amended): for every AggregateResult whose bucket labels are all
strings (the shape the spec's data model prescribes), `format_response`
produces a payload carrying the given timestamp and timezone, the total
and every bucket entry rounded to two decimal places, and both bucket
dictionaries emitted in ascending label order, each a permutation of the
rounded input entries. -/
theorem structured_rendering_sorted_rounded (s : Stats) (ts tz : String)
    (hc : strLabelsB s.by_category = true) (hd : strLabelsB s.by_desk = true) :
    ∃ p : ResponsePayload,
      format_response (some s) ts tz = PyResult.ok (some p) ∧
      p.timestamp = ts ∧ p.timezone = tz ∧
      p.total_pnl = round2 s.total ∧ isR2 p.total_pnl ∧
      p.by_category.Pairwise entryLe ∧
      p.by_category.Perm (s.by_category.map roundPair) ∧
      (∀ q ∈ p.by_category, isR2 q.2) ∧
      p.by_desk.Pairwise entryLe ∧
      p.by_desk.Perm (s.by_desk.map roundPair) ∧
      (∀ q ∈ p.by_desk, isR2 q.2) := by
  rcases sortPairs_spec s.by_category hc with ⟨c, hcs, hcp, hcw, _⟩
  rcases sortPairs_spec s.by_desk hd with ⟨d, hds, hdp, hdw, _⟩
  refine ⟨⟨ts, tz, round2 s.total, c.map roundPair, d.map roundPair⟩,
    ?_, rfl, rfl, rfl, ⟨rhe (s.total * 100), rfl⟩, ?_, ?_, ?_, ?_, ?_, ?_⟩
  · simp [format_response, hcs, hds, roundPair]
  · exact hcw.map roundPair (fun a b hab => hab)
  · exact hcp.map roundPair
  · intro q hq
    rcases List.mem_map.mp hq with ⟨p₂, hp₂, rfl⟩
    exact ⟨rhe (p₂.2 * 100), rfl⟩
  · exact hdw.map roundPair (fun a b hab => hab)
  · exact hdp.map roundPair
  · intro q hq
    rcases List.mem_map.mp hq with ⟨p₂, hp₂, rfl⟩
    exact ⟨rhe (p₂.2 * 100), rfl⟩

/-- C6 witness: the structured rendering of the example aggregate. -/
theorem structured_rendering_sorted_rounded_witness :
    ∃ p : ResponsePayload,
      format_response (some exStats) "2025-11-07 12:00:00" "UTC" =
        PyResult.ok (some p) ∧
      p.timestamp = "2025-11-07 12:00:00" ∧ p.timezone = "UTC" ∧
      p.total_pnl = round2 exStats.total ∧ isR2 p.total_pnl ∧
      p.by_category.Pairwise entryLe ∧
      p.by_category.Perm (exStats.by_category.map roundPair) ∧
      (∀ q ∈ p.by_category, isR2 q.2) ∧
      p.by_desk.Pairwise entryLe ∧
      p.by_desk.Perm (exStats.by_desk.map roundPair) ∧
      (∀ q ∈ p.by_desk, isR2 q.2) :=
  structured_rendering_sorted_rounded exStats "2025-11-07 12:00:00" "UTC" rfl rfl

/-- C7: `lambda_handler` is total on every input — fetch failure,
aggregation failure, or an unexpected exception — and always returns
either a 500 envelope whose body is an error object with a non-empty
message and the timestamp, or a 200 envelope with the structured payload
as body and a Content-Type header. -/
theorem handler_never_raises (exc : Option String) (fetched : Option Document)
    (nowStr isoStr tz : String) :
    ((lambda_handler exc fetched nowStr isoStr tz).statusCode = 500 ∧
      ∃ msg, (lambda_handler exc fetched nowStr isoStr tz).body =
          Body.error msg isoStr ∧ msg ≠ "") ∨
    ((lambda_handler exc fetched nowStr isoStr tz).statusCode = 200 ∧
      (lambda_handler exc fetched nowStr isoStr tz).headers =
        some [("Content-Type", "application/json")] ∧
      ∃ p, (lambda_handler exc fetched nowStr isoStr tz).body =
        Body.payload (some p)) := by
  rcases exc with _ | msg
  · rcases fetched with _ | data
    · exact Or.inl ⟨rfl, "Failed to retrieve data from API.", rfl, by decide⟩
    · rcases hcalc : calculate_pnl_statistics (some data) with _ | stats
      · refine Or.inl ⟨?_, "Failed to calculate statistics.", ?_, by decide⟩ <;>
          simp [lambda_handler, hcalc]
      · rcases hc : sortPairs stats.by_category with _ | c
        · refine Or.inl ⟨?_, typeErrorText, ?_, by decide⟩ <;>
            simp [lambda_handler, hcalc, print_statistics, hc]
        · rcases hd : sortPairs stats.by_desk with _ | d
          · refine Or.inl ⟨?_, typeErrorText, ?_, by decide⟩ <;>
              simp [lambda_handler, hcalc, print_statistics, hc, hd]
          · refine Or.inr ⟨?_, ?_,
              ⟨⟨nowStr, tz, round2 stats.total,
                c.map (fun q => (q.1, round2 q.2)),
                d.map (fun q => (q.1, round2 q.2))⟩, ?_⟩⟩ <;>
              simp [lambda_handler, hcalc, print_statistics, format_response, hc, hd]
  · refine Or.inl ⟨rfl, "Unexpected error: " ++ msg, rfl, ?_⟩
    intro h
    have h₂ : ("Unexpected error: ").length + msg.length = ("" : String).length := by
      rw [← String.length_append, h]
    rw [show ("Unexpected error: ").length = 18 from rfl,
      show ("" : String).length = 0 from rfl] at h₂
    omega

/-- C8 counterexample: on the mixed-label document the `TypeError` raised
while printing statistics propagates out of `main` — no error message is
logged and `main` does not stop normally. -/
theorem main_mixed_labels_uncaught :
    main (some mixedDoc) "2025-11-07 12:00:00" "EST" = PyResult.exc := by
  simp [main, mixedDoc_eval, print_mixed_exc]

/-- C8 (amended): `main` runs fetch, then aggregation, then text
rendering, emitting to the log; on a fetch failure or an aggregation
failure it logs an error message and stops (returning no value), and on
success it logs the rendered statistics — but an exception raised while
rendering (e.g. sorting buckets that mix a `None` label with string
labels) propagates out of `main` instead of being logged. -/
theorem main_logs_failures (nowStr tz : String) :
    main none nowStr tz = PyResult.ok [queryMsg, fetchFailMsg] ∧
      (∀ d : Document, calculate_pnl_statistics (some d) = none →
        main (some d) nowStr tz =
          PyResult.ok [queryMsg, calcMsg nowStr tz, aggFailMsg]) ∧
      (∀ (d : Document) (s : Stats),
        calculate_pnl_statistics (some d) = some s →
        print_statistics (some s) = PyResult.exc →
        main (some d) nowStr tz = PyResult.exc) ∧
      (∀ (d : Document) (s : Stats) (ls : List String),
        calculate_pnl_statistics (some d) = some s →
        print_statistics (some s) = PyResult.ok ls →
        main (some d) nowStr tz =
          PyResult.ok (queryMsg :: calcMsg nowStr tz :: ls)) := by
  refine ⟨rfl, ?_, ?_, ?_⟩
  · intro d h
    simp [main, h]
  · intro d s h₁ h₂
    simp [main, h₁, h₂]
  · intro d s ls h₁ h₂
    simp [main, h₁, h₂]

/-- C8 witness: the four behaviours at concrete inputs — fetch failure
logged, aggregation failure logged, the uncaught rendering exception, and
a successful run. -/
theorem main_logs_failures_witness :
    main none "n" "z" = PyResult.ok [queryMsg, fetchFailMsg] ∧
      main (some ⟨none⟩) "n" "z" =
        PyResult.ok [queryMsg, calcMsg "n" "z", aggFailMsg] ∧
      main (some mixedDoc) "n" "z" = PyResult.exc ∧
      main (some exDoc) "n" "z" =
        PyResult.ok (queryMsg :: calcMsg "n" "z" :: exLines) :=
  ⟨(main_logs_failures "n" "z").1,
    (main_logs_failures "n" "z").2.1 ⟨none⟩ rfl,
    (main_logs_failures "n" "z").2.2.1 mixedDoc mixedStats mixedDoc_eval
      print_mixed_exc,
    (main_logs_failures "n" "z").2.2.2 exDoc exStats exLines exDoc_eval
      print_ex_lines⟩

end QueryPnl
